import Mathlib

/-!
Verification development for labgrid's `ShellDriver`
(src/labgrid/driver/shelldriver.py) and `SerialDriver`
(src/labgrid/driver/serialdriver.py).

The drivers are embedded shallowly: every pure computation
(regex substitution, string splitting, quoting, integer parsing) is
translated directly from the Python source, and the effectful console /
serial interactions are made explicit by passing the environment's
responses (the pexpect "before" text, the pending byte count, oracle
booleans for whether an `expect` call matched) as arguments and by
returning the list of lines sent to the console alongside the result.
Python exceptions are modelled with an `Except` result carrying a
`PyErr` value.
-/

/-- Python exceptions raised (or propagated) by the two drivers. -/
inductive PyErr where
  /-- `ValueError`: `list.index` on an absent element, or `int()` on a
  non-numeric string. -/
  | valueError : PyErr
  /-- `IndexError`: subscripting an empty list (`data[-1]`). -/
  | indexError : PyErr
  /-- `TypeError`: subscripting `None` (`res[2]` when `run` returned `None`). -/
  | typeError : PyErr
  /-- `ExecutionError(cmd)` from labgrid's exception module. -/
  | executionError (cmd : String) : PyErr
  /-- `KeyError`: dictionary lookup of an absent key. -/
  | keyError : PyErr
  /-- pexpect `TIMEOUT` raised by `SerialDriver._read`; carries the
  timeout value that the Python code formats into the message string. -/
  | timeoutErr (elapsed : ℚ) : PyErr
  /-- pexpect `TIMEOUT` raised by an uncaught `console.expect` call. -/
  | expectTimeout : PyErr
  /-- `IOError` from `put_ssh_key` when the key file does not parse. -/
  | ioError : PyErr
  /-- plain `Exception(msg)` (`SerialDriver: unknown protocol`). -/
  | exception (msg : String) : PyErr
  /-- `serial.SerialException` re-raised by `SerialDriver.open`, carrying
  the port target string. -/
  | serialException (port : String) : PyErr
  deriving DecidableEq, Repr

/-! ### The VT100 regex

`re.compile(r'(\x1b\[|\x9b)[^@-_a-z]*[@-_a-z]|\x1b[@-_a-z]')`, used by
`ShellDriver.run` as `self.re_vt100.sub('', before, count=1000000)`.
The character class `[@-_a-z]` holds the code points 0x40–0x5F and
0x61–0x7A. -/

/-- Membership in the regex character class `[@-_a-z]`. -/
def vtClass (c : Char) : Bool :=
  ('@' ≤ c && c ≤ '_') || ('a' ≤ c && c ≤ 'z')

/-- `[^@-_a-z]*[@-_a-z]` applied greedily: skip characters outside the
class until one inside the class terminates the match, returning the
remainder after it; `none` when the input ends first. -/
def vtScan : List Char → Option (List Char)
  | [] => none
  | c :: rest => if vtClass c then some rest else vtScan rest

theorem vtScan_length {cs rest : List Char} (h : vtScan cs = some rest) :
    rest.length < cs.length := by
  induction cs with
  | nil => simp [vtScan] at h
  | cons c cs ih =>
    simp only [vtScan] at h
    split at h
    · cases h; simp
    · exact Nat.lt_trans (ih h) (by simp)

/-- Attempt to match the VT100 pattern at the head of the input, giving
the remainder after the match.  The first alternative
`(\x1b\[|\x9b)[^@-_a-z]*[@-_a-z]` is tried first; on its failure the
second alternative `\x1b[@-_a-z]` is tried (after `ESC [` with no class
terminator in the rest, the second alternative still matches `ESC [`
itself, `[` being in the class; after a lone `CSI` byte nothing else can
match). -/
def vtTryMatch : List Char → Option (List Char)
  | [] => none
  | [_] => none
  | c1 :: c2 :: rest =>
    if c1 = '\x1b' && c2 = '[' then
      match vtScan rest with
      | some r => some r
      | none => some rest
    else if c1 = '\x9b' then vtScan (c2 :: rest)
    else if c1 = '\x1b' && vtClass c2 then some rest
    else none

theorem vtTryMatch_length {cs rest : List Char} (h : vtTryMatch cs = some rest) :
    rest.length < cs.length := by
  match cs, h with
  | c1 :: c2 :: rest', h =>
    simp only [vtTryMatch] at h
    split at h
    · split at h
      · cases h
        rename_i r hr
        have := vtScan_length hr
        simp only [List.length_cons]
        omega
      · cases h
        simp only [List.length_cons]
        omega
    · split at h
      · have := vtScan_length h
        simp only [List.length_cons] at this ⊢
        omega
      · split at h
        · cases h
          simp only [List.length_cons]
          omega
        · cases h
  | [], h => simp [vtTryMatch] at h
  | [c], h => simp [vtTryMatch] at h

/-- `re.sub` with replacement `''`: scan left to right, deleting each
non-overlapping leftmost match, up to `fuel` matches (the source passes
`count=1000000`).  The extra `gas` argument only makes the recursion
structural (each step consumes at least one character, so any
`gas ≥ cs.length` gives the same result — `vtSubAux_gas` below); it is
always instantiated with the input length. -/
def vtSubAux : Nat → Nat → List Char → List Char
  | _, _, [] => []
  | _, 0, cs => cs
  | fuel, gas + 1, c :: rest =>
    if fuel = 0 then c :: rest
    else
      match vtTryMatch (c :: rest) with
      | some r => vtSubAux (fuel - 1) gas r
      | none => c :: vtSubAux fuel gas rest

/-- The gas argument of `vtSubAux` is irrelevant as long as it bounds
the input length. -/
theorem vtSubAux_gas :
    ∀ (n : Nat) (cs : List Char), cs.length ≤ n →
      ∀ (fuel gas gas' : Nat), cs.length ≤ gas → cs.length ≤ gas' →
        vtSubAux fuel gas cs = vtSubAux fuel gas' cs := by
  intro n
  induction n with
  | zero =>
    intro cs hn fuel gas gas' _ _
    have : cs = [] := List.length_eq_zero.mp (Nat.le_zero.mp hn)
    subst this
    cases gas <;> cases gas' <;> rfl
  | succ n ih =>
    intro cs hn fuel gas gas' hg hg'
    cases cs with
    | nil => cases gas <;> cases gas' <;> rfl
    | cons c rest =>
      match gas, gas' with
      | 0, _ => simp at hg
      | _, 0 => simp at hg'
      | g + 1, g' + 1 =>
        show vtSubAux fuel (g + 1) (c :: rest) = vtSubAux fuel (g' + 1) (c :: rest)
        simp only [vtSubAux]
        split
        · rfl
        · cases hm : vtTryMatch (c :: rest) with
          | some r =>
            have hr := vtTryMatch_length hm
            simp only [List.length_cons] at hr hn hg hg'
            exact ih r (by omega) (fuel - 1) g g' (by omega) (by omega)
          | none =>
            simp only [List.length_cons] at hn hg hg'
            rw [ih rest (by omega) fuel g g' (by omega) (by omega)]

/-- `self.re_vt100.sub('', s, count=1000000)`. -/
def vt100Sub (s : String) : String :=
  String.mk (vtSubAux 1000000 s.data.length s.data)

/-! ### `shlex.quote`

`ShellDriver.run` builds `'''run {}'''.format(shlex.quote(cmd))`. -/

/-- Characters that `shlex.quote` leaves unquoted: the complement of
the `_find_unsafe` ASCII pattern, i.e. ASCII word characters plus the
punctuation `@ % + = : , .` and the slash and dash. -/
def shlexSafeChar (c : Char) : Bool :=
  c.isAlphanum || c = '_' || c = '@' || c = '%' || c = '+' || c = '=' ||
    c = ':' || c = ',' || c = '.' || c = '/' || c = '-'

/-- `str.replace` for a nonempty pattern: replace every non-overlapping
leftmost occurrence of `pat` by `rep`.  As with `vtSubAux`, the `gas`
argument (always the input length) only makes the recursion
structural. -/
def pyReplaceAux (pat rep : List Char) : Nat → List Char → List Char
  | _, [] => []
  | 0, cs => cs
  | gas + 1, c :: rest =>
    if pat.isPrefixOf (c :: rest) then
      rep ++ pyReplaceAux pat rep gas ((c :: rest).drop pat.length)
    else c :: pyReplaceAux pat rep gas rest

/-- `s.replace(pat, rep)` (for the nonempty pattern the source uses). -/
def pyReplace (s pat rep : String) : String :=
  String.mk (pyReplaceAux pat.data rep.data s.data.length s.data)

/-- `shlex.quote`: the empty string becomes `''`; a string of safe
characters is returned unchanged; anything else is wrapped in single
quotes with every embedded `'` replaced by `'"'"'`. -/
def shlexQuote (s : String) : String :=
  if s = "" then "''"
  else if s.data.all shlexSafeChar then s
  else "'" ++ pyReplace s "'" "'\"'\"'" ++ "'"

/-- `str.split` for a nonempty separator: cut at every non-overlapping
leftmost occurrence of `sep`; `acc` holds the characters of the current
field reversed, and `gas` (always the input length) makes the recursion
structural. -/
def pySplitAux (sep : List Char) : Nat → List Char → List Char → List (List Char)
  | _, acc, [] => [acc.reverse]
  | 0, acc, cs => [acc.reverse ++ cs]
  | gas + 1, acc, c :: rest =>
    if sep.isPrefixOf (c :: rest) then
      acc.reverse :: pySplitAux sep gas [] ((c :: rest).drop sep.length)
    else pySplitAux sep gas (c :: acc) rest

/-- `s.split(sep)` for a nonempty separator string. -/
def pySplit (s sep : String) : List String :=
  (pySplitAux sep.data s.data.length [] s.data).map String.mk

/-! ### `int()`

`ShellDriver.run` parses the exit-status line with `int(data[-1])`. -/

/-- The whitespace `int()` (via `str.strip`) tolerates around a numeral
(ASCII fragment). -/
def isPySpace (c : Char) : Bool :=
  c = ' ' || c = '\t' || c = '\n' || c = '\x0d' || c = '\x0b' || c = '\x0c'

/-- Digits of a Python integer literal after the first digit: decimal
digits with single underscores allowed only between digits. -/
def pyDigits : List Char → Nat → Option Nat
  | [], acc => some acc
  | '_' :: c :: rest, acc =>
    if c.isDigit then pyDigits rest (acc * 10 + (c.toNat - 48)) else none
  | ['_'], _ => none
  | c :: rest, acc =>
    if c.isDigit then pyDigits rest (acc * 10 + (c.toNat - 48)) else none

/-- A nonempty digit sequence (underscore rules included); `none` when
the first character is not a decimal digit. -/
def pyDigitsStr : List Char → Option Nat
  | [] => none
  | c :: rest => if c.isDigit then pyDigits rest (c.toNat - 48) else none

/-- `int(s)` for a decimal string: strip surrounding whitespace, accept
an optional sign, then a digit sequence; `none` models `ValueError`. -/
def pyInt (s : String) : Option Int :=
  let t := ((s.data.dropWhile isPySpace).reverse.dropWhile isPySpace).reverse
  match t with
  | '+' :: rest => (pyDigitsStr rest).map (fun n => (n : Int))
  | '-' :: rest => (pyDigitsStr rest).map (fun n => -(n : Int))
  | _ => (pyDigitsStr t).map (fun n => (n : Int))

/-! ### `list.index` -/

/-- Python's `list.index`: position of the first occurrence, `none`
models the `ValueError` raised when the element is absent. -/
def pyIndex (x : String) : List String → Option Nat
  | [] => none
  | a :: l => if a = x then some 0 else (pyIndex x l).map (· + 1)

/-! ### `ShellDriver.run` and `ShellDriver.run_check`

The console is abstracted by passing the text that
`self.console.expect(self.prompt)` would return as `before` (already
decoded from UTF-8); the first component of the result collects the
lines given to `self.console.sendline`. -/

/-- The body of `ShellDriver.run`'s READY branch on the before-text:
strip VT100 codes, split on CR-LF, keep what lies strictly between the
first marker line and the following marker line, parse the final line as
the exit code and drop it. -/
def runProcess (before : String) :
    Except PyErr (List String × List String × Int) :=
  let data := pySplit (vt100Sub before) "\r\n"
  match pyIndex "MARKER" data with
  | none => .error .valueError
  | some i =>
    let data := data.drop (i + 1)
    match pyIndex "MARKER" data with
    | none => .error .valueError
    | some j =>
      let data := data.take j
      match data.getLast? with
      | none => .error .indexError
      | some last =>
        match pyInt last with
        | none => .error .valueError
        | some exitcode => .ok (data.dropLast, [], exitcode)

namespace ShellDriver

/-- `ShellDriver.run`: when `_status == 1`, send `run <quoted cmd>`,
wait for the prompt and transform the before-text with `runProcess`;
otherwise send nothing and return `None`. -/
def run (status : Nat) (cmd : String) (before : String) :
    List String × Except PyErr (Option (List String × List String × Int)) :=
  let cmp_command := "run " ++ shlexQuote cmd
  if status = 1 then
    ([cmp_command],
      match runProcess before with
      | .ok r => .ok (some r)
      | .error e => .error e)
  else ([], .ok none)

/-- `ShellDriver.run_check`: `res = self.run(cmd)`, then `res[2]` —
a `TypeError` when `run` returned `None` — and either an
`ExecutionError(cmd)` on a nonzero exit code or the output lines
`res[0]`. -/
def run_check (status : Nat) (cmd : String) (before : String) :
    List String × Except PyErr (List String) :=
  let res := run status cmd before
  (res.1,
    match res.2 with
    | .error e => .error e
    | .ok none => .error .typeError
    | .ok (some (out, _, exitcode)) =>
      if exitcode ≠ 0 then .error (.executionError cmd) else .ok out)

end ShellDriver

/-- C3: when the status flag is not 1, `run` sends nothing, raises
nothing and returns `None`. -/
theorem run_not_ready (status : Nat) (h : status ≠ 1)
    (cmd before : String) :
    ShellDriver.run status cmd before = ([], .ok none) := by
  simp [ShellDriver.run, h]

/-- Witness for `run_not_ready` at status 0. -/
theorem run_not_ready_witness :
    ShellDriver.run 0 "echo hi" "garbage" = ([], .ok none) :=
  run_not_ready 0 (by decide) "echo hi" "garbage"

/-- C10: when the status flag is not 1, `run_check` neither returns an
absent result nor raises `ExecutionError`: `run` returns `None` and the
unconditional `res[2]` subscript faults with a `TypeError`, for every
command string. -/
theorem run_check_not_ready (status : Nat) (h : status ≠ 1)
    (cmd before : String) :
    ShellDriver.run_check status cmd before = ([], .error .typeError) := by
  simp [ShellDriver.run_check, ShellDriver.run, h]

/-- Witness for `run_check_not_ready` at status 0. -/
theorem run_check_not_ready_witness :
    ShellDriver.run_check 0 "false" "x" = ([], .error .typeError) :=
  run_check_not_ready 0 (by decide) "false" "x"

/-! ### C1: `run` on a READY session -/

theorem pyIndex_exists_of_mem (x : String) (l : List String) (h : x ∈ l) :
    ∃ i, pyIndex x l = some i := by
  induction l with
  | nil => cases h
  | cons a l ih =>
    by_cases ha : a = x
    · exact ⟨0, by simp [pyIndex, ha]⟩
    · have hx : x ∈ l := by
        cases h with
        | head => exact absurd rfl ha
        | tail _ h' => exact h'
      obtain ⟨j, hj⟩ := ih hx
      exact ⟨j + 1, by simp [pyIndex, ha, hj]⟩

theorem pyIndex_drop (x : String) (l : List String) :
    ∀ i, pyIndex x l = some i →
      l.drop (i + 1) = (l.dropWhile (· != x)).tail := by
  induction l with
  | nil => intro i h; simp [pyIndex] at h
  | cons a l ih =>
    intro i h
    simp only [pyIndex] at h
    split at h
    · rename_i ha
      cases h
      simp [List.dropWhile_cons, ha]
    · rename_i ha
      cases hp : pyIndex x l with
      | none => rw [hp] at h; simp at h
      | some j =>
        rw [hp] at h
        simp only [Option.map_some'] at h
        cases h
        have hne : (a != x) = true := by simpa using ha
        simp only [List.drop_succ_cons, List.dropWhile_cons, hne, if_true]
        exact ih j hp

theorem pyIndex_take (x : String) (l : List String) :
    ∀ i, pyIndex x l = some i →
      l.take i = l.takeWhile (· != x) := by
  induction l with
  | nil => intro i h; simp [pyIndex] at h
  | cons a l ih =>
    intro i h
    simp only [pyIndex] at h
    split at h
    · rename_i ha
      cases h
      simp [List.takeWhile_cons, ha]
    · rename_i ha
      cases hp : pyIndex x l with
      | none => rw [hp] at h; simp at h
      | some j =>
        rw [hp] at h
        simp only [Option.map_some'] at h
        cases h
        have hne : (a != x) = true := by simpa using ha
        simp only [List.take_succ_cons, List.takeWhile_cons, hne, if_true]
        rw [ih j hp]

/-- The before-text transformation exactly as the specification words
it: strip the VT100 control sequences, split on CR-LF line boundaries,
discard every line up to and including the first line equal to the
marker token, discard every line from the next marker occurrence
onward, parse the final remaining line as the integer exit code, remove
it and return the triple of remaining lines, empty diagnostics and exit
code.  `none` when the before-text is not of this shape. -/
def runTransformSpec (before : String) :
    Option (List String × List String × Int) :=
  let lines := pySplit (vt100Sub before) "\r\n"
  if "MARKER" ∈ lines then
    let afterFirst := (lines.dropWhile (· != "MARKER")).tail
    if "MARKER" ∈ afterFirst then
      let middle := afterFirst.takeWhile (· != "MARKER")
      match middle.getLast? with
      | none => none
      | some last =>
        match pyInt last with
        | none => none
        | some code => some (middle.dropLast, [], code)
    else none
  else none

/-- `runProcess` (the code's index/slice pipeline) agrees with the
specification's dropWhile/takeWhile description on every before-text the
specification accepts. -/
theorem runProcess_eq_transformSpec (before : String)
    (r : List String × List String × Int)
    (h : runTransformSpec before = some r) : runProcess before = .ok r := by
  unfold runTransformSpec at h
  by_cases h1 : "MARKER" ∈ pySplit (vt100Sub before) "\r\n"
  case neg => rw [if_neg h1] at h; cases h
  rw [if_pos h1] at h
  obtain ⟨i, hi⟩ := pyIndex_exists_of_mem _ _ h1
  have hdrop := pyIndex_drop _ _ _ hi
  by_cases h2 : "MARKER" ∈
      ((pySplit (vt100Sub before) "\r\n").dropWhile (· != "MARKER")).tail
  case neg => rw [if_neg h2] at h; cases h
  rw [if_pos h2] at h
  rw [← hdrop] at h2
  obtain ⟨j, hj⟩ := pyIndex_exists_of_mem _ _ h2
  have htake := pyIndex_take _ _ _ hj
  rw [hdrop] at htake
  rw [← htake] at h
  rw [hdrop] at hj
  unfold runProcess
  simp only [hi, hdrop, hj]
  cases hl : (List.take j ((pySplit (vt100Sub before) "\r\n").dropWhile
      (· != "MARKER")).tail).getLast? with
  | none => simp [hl] at h
  | some last =>
    simp only [hl] at h ⊢
    cases hp : pyInt last with
    | none => simp [hp] at h
    | some code =>
      simp only [hp] at h ⊢
      cases h
      rfl

/-- C1: on a READY-capable session (status flag 1), `run cmd` sends
exactly the shlex-quoted command prefixed by the wrapper name and
returns the triple obtained from the before-text by the specified
transformation (VT100 stripping, CR-LF split, discarding through the
first marker line, discarding from the next marker line on, parsing and
removing the final exit-code line, empty diagnostics). -/
theorem run_ready_transform (cmd before : String)
    (out : List String) (code : Int)
    (h : runTransformSpec before = some (out, [], code)) :
    ShellDriver.run 1 cmd before =
      (["run " ++ shlexQuote cmd], .ok (some (out, [], code))) := by
  simp [ShellDriver.run, runProcess_eq_transformSpec before _ h]

/-- Witness for `run_ready_transform`: a concrete echoed exchange. -/
theorem run_ready_transform_witness :
    runTransformSpec "run 'echo hi'\r\nMARKER\r\nhi\r\n0\r\nMARKER\r\n$ " =
        some (["hi"], [], 0) ∧
    ShellDriver.run 1 "echo hi"
        "run 'echo hi'\r\nMARKER\r\nhi\r\n0\r\nMARKER\r\n$ " =
      (["run 'echo hi'"], .ok (some (["hi"], [], 0))) :=
  ⟨rfl, run_ready_transform "echo hi" _ ["hi"] 0 rfl⟩

/-! ### C2: `run_check` on a READY session -/

/-- C2: on a READY-capable session, whenever `run` produces a result
triple, `run_check` returns exactly its output-lines component when the
exit code is 0 and raises `ExecutionError` carrying the original command
string when the exit code is nonzero (sending the same line as `run`). -/
theorem run_check_ready (cmd before : String) (sent : List String)
    (out diags : List String) (code : Int)
    (h : ShellDriver.run 1 cmd before = (sent, .ok (some (out, diags, code)))) :
    ShellDriver.run_check 1 cmd before =
      (sent, if code = 0 then .ok out else .error (.executionError cmd)) := by
  simp only [ShellDriver.run_check, h]
  by_cases hc : code = 0 <;> simp [hc]

/-- Witness for `run_check_ready`: one zero-exit and one nonzero-exit
exchange. -/
theorem run_check_ready_witness :
    ShellDriver.run_check 1 "true" "run true\r\nMARKER\r\n0\r\nMARKER\r\n$ " =
        (["run true"], .ok []) ∧
    ShellDriver.run_check 1 "false" "run false\r\nMARKER\r\n1\r\nMARKER\r\n$ " =
        (["run false"], .error (.executionError "false")) :=
  ⟨by
    simpa using run_check_ready "true"
      "run true\r\nMARKER\r\n0\r\nMARKER\r\n$ " ["run true"] [] [] 0 rfl,
   by
    simpa using run_check_ready "false"
      "run false\r\nMARKER\r\n1\r\nMARKER\r\n$ " ["run false"] [] [] 1 rfl⟩

/-! ### C4: the initialization sequence (`__attrs_post_init__`)

`__attrs_post_init__` sets `_status = 0`, then runs `await_login()`,
`_check_prompt()`, `_inject_run()` and — when a keyfile is configured —
`put_ssh_key(keyfile)`.  The console is abstracted by an `InitEnv`
recording, for each `expect` call of the sequence, whether the expected
pattern matched before the timeout, plus the console traffic of the
`put_ssh_key` step (only reachable with a nonempty keyfile). -/

/-- Environment of one initialization run. -/
structure InitEnv where
  /-- whether `expect(login_prompt)` in `await_login` matches (a timeout
  there is caught and tolerated). -/
  loginPromptFound : Bool
  /-- whether `expect("Password: ")` matches (timeout caught). -/
  passwordPromptFound : Bool
  /-- whether `expect(prompt)` in `_check_prompt` matches; on timeout
  `_status` is set to 0 instead of 1. -/
  checkPromptFound : Bool
  /-- whether the uncaught `expect(prompt)` in `_inject_run` matches. -/
  injectPromptFound : Bool
  /-- abstract console traffic of the `put_ssh_key` call, exercised only
  when a keyfile is configured. -/
  sshKeyTraffic : List String

namespace ShellDriver

/-- The wrapper shell-function definition sent by `_inject_run`. -/
def wrapperLine : String :=
  "run() \x7b echo \"MARKER\"; sh -c \"$@\"; echo \"$?\"; echo \"MARKER\"; \x7d"

/-- Lines sent by `await_login`: an empty line, the username and — when
a password is configured — the password; both `expect` calls tolerate a
timeout, so the environment cannot change what is sent. -/
def await_login (_env : InitEnv) (username password : String) : List String :=
  [""] ++ [username] ++ (if password ≠ "" then [password] else [])

/-- `__attrs_post_init__` after `_status = 0`: `await_login`, then
`_check_prompt` (an empty line; prompt found sets status 1, timeout sets
status 0), then `_inject_run` (sends the wrapper definition, then an
uncaught `expect(prompt)`), then `put_ssh_key` if a keyfile is
configured.  Result: lines sent, final `_status`, and whether the
sequence raised. -/
def attrsPostInit (env : InitEnv) (username password keyfile : String) :
    List String × Nat × Except PyErr Unit :=
  let sentLogin := await_login env username password
  let status := if env.checkPromptFound then 1 else 0
  if env.injectPromptFound then
    if keyfile ≠ "" then
      (sentLogin ++ [""] ++ [wrapperLine] ++ env.sshKeyTraffic, status, .ok ())
    else
      (sentLogin ++ [""] ++ [wrapperLine], status, .ok ())
  else
    (sentLogin ++ [""] ++ [wrapperLine], status, .error .expectTimeout)

end ShellDriver

/-- C4 counterexample: with prompt verification timing out (status flag
set to 0), the wrapper definition is still sent — the claim that the
wrapper is never sent in this case is false. -/
theorem inject_run_counterexample :
    (ShellDriver.attrsPostInit ⟨false, false, false, false, []⟩
        "root" "" "").2.1 = 0 ∧
    ShellDriver.wrapperLine ∈
      (ShellDriver.attrsPostInit ⟨false, false, false, false, []⟩
        "root" "" "").1 := by
  constructor
  · rfl
  · simp [ShellDriver.attrsPostInit, ShellDriver.await_login]

/-- C4 amended: the command-wrapper installation step is performed
unconditionally — `_inject_run` sends the wrapper definition after
prompt verification whether or not prompt verification succeeded (when
it failed, the subsequent uncaught `expect(prompt)` then raises). -/
theorem inject_run_unconditional (env : InitEnv)
    (username password keyfile : String) :
    ShellDriver.wrapperLine ∈
      (ShellDriver.attrsPostInit env username password keyfile).1 := by
  by_cases hI : env.injectPromptFound <;> by_cases hK : keyfile = "" <;>
    simp [ShellDriver.attrsPostInit, ShellDriver.await_login, hI, hK]

/-! ### C5: `get_ip`

The address-line regex of `get_ip` (with `re.X`, so pattern whitespace
is insignificant) is
`\d+:` `\s+(?P<if>\w+)` `\s+inet\s+(?P<ip>[\d.]+)` `/(?P<prefix>\d+)`
`.*global`, applied with `re.match`.  In every sub-pattern juxtaposition
the greedy repetition and its follower draw from disjoint character
sets, so greedy matching without backtracking is exact. -/

/-- `\w` (word character, ASCII fragment). -/
def isWordChar (c : Char) : Bool := c.isAlphanum || c = '_'

/-- One-or-more repetition of a character class: the maximal prefix
satisfying `p` (nonempty, else no match) and the remainder. -/
def takeClass1 (p : Char → Bool) (cs : List Char) :
    Option (List Char × List Char) :=
  match cs.takeWhile p with
  | [] => none
  | t => some (t, cs.drop t.length)

/-- A literal character. -/
def litChar (c : Char) (cs : List Char) : Option (List Char) :=
  match cs with
  | c' :: rest => if c' = c then some rest else none
  | [] => none

/-- A literal string. -/
def litStr (lit : List Char) (cs : List Char) : Option (List Char) :=
  if lit.isPrefixOf cs then some (cs.drop lit.length) else none

/-- Whether `needle` occurs as a contiguous subsequence. -/
def containsSeq (needle : List Char) : List Char → Bool
  | [] => needle.isEmpty
  | c :: rest => needle.isPrefixOf (c :: rest) || containsSeq needle rest

/-- `re.match` of the `get_ip` address-line pattern: on success the
captured interface name and IPv4 address (the prefix-length group is
captured but unused by the code).  `.*global` requires `global` to occur
after the prefix group and before any newline (`.` does not cross
newlines). -/
def ipLineMatch (s : String) : Option (String × String) := do
  let (_, r1) ← takeClass1 Char.isDigit s.data
  let r2 ← litChar ':' r1
  let (_, r3) ← takeClass1 isPySpace r2
  let (ifname, r4) ← takeClass1 isWordChar r3
  let (_, r5) ← takeClass1 isPySpace r4
  let r6 ← litStr "inet".data r5
  let (_, r7) ← takeClass1 isPySpace r6
  let (ip, r8) ← takeClass1 (fun c => c.isDigit || c = '.') r7
  let r9 ← litChar '/' r8
  let (_, r10) ← takeClass1 Char.isDigit r9
  if containsSeq "global".data (r10.takeWhile (· != '\n')) then
    some (String.mk ifname, String.mk ip)
  else none

/-- Python `dict` assignment `d[k] = v` on an insertion-ordered
association list: overwrite in place when the key exists, append
otherwise. -/
def dictInsert (d : List (String × String)) (k v : String) :
    List (String × String) :=
  if d.any (fun p => p.1 == k) then
    d.map (fun p => if p.1 == k then (k, v) else p)
  else d ++ [(k, v)]

/-- Python `dict` lookup `d[k]` (first — and only — entry with key `k`);
`none` models `KeyError`. -/
def dictGet (d : List (String × String)) (k : String) : Option String :=
  (d.find? (fun p => p.1 == k)).map (fun p => p.2)

/-- The `for line in ip_string` loop of `get_ip`, building `result`. -/
def ipBuild (d : List (String × String)) (lines : List String) :
    List (String × String) :=
  lines.foldl (fun acc line =>
    match ipLineMatch line with
    | some (ifn, ip) => dictInsert acc ifn ip
    | none => acc) d

namespace ShellDriver

/-- `ShellDriver.get_ip`: when `_status == 1`, run
`ip -o -4 addr show` via `run_check` (an `ExecutionError` is caught and
yields `None`; any other exception propagates), collect the regex
matches into `result`, and return `result[interface]` when `result` is
nonempty (a `KeyError` when the requested interface is not a key) and
`None` when it is empty.  When `_status != 1` the function falls off the
end, returning `None`. -/
def get_ip (status : Nat) (interface : String) (before : String) :
    Except PyErr (Option String) :=
  if status = 1 then
    match (run_check status "ip -o -4 addr show" before).2 with
    | .error (.executionError _) => .ok none
    | .error e => .error e
    | .ok ip_string =>
      let result := ipBuild [] ip_string
      if result ≠ [] then
        match dictGet result interface with
        | some ip => .ok (some ip)
        | none => .error .keyError
      else .ok none
  else .ok none

end ShellDriver

/-! Dictionary lemmas relating the `result` dict of `get_ip` to the
sequence of regex matches. -/

theorem dictInsert_cons_ne (p : String × String)
    (ds : List (String × String)) (k v : String) (hp : p.1 ≠ k) :
    dictInsert (p :: ds) k v = p :: dictInsert ds k v := by
  have hpb : (p.1 == k) = false := by simpa using hp
  unfold dictInsert
  simp only [List.any_cons, hpb, Bool.false_or]
  split <;> simp [hp, hpb]

theorem dictInsert_cons_eq (p : String × String)
    (ds : List (String × String)) (k v : String) (hp : p.1 = k) :
    dictInsert (p :: ds) k v =
      (k, v) :: ds.map (fun q => if q.1 == k then (k, v) else q) := by
  unfold dictInsert
  simp [List.any_cons, hp]

theorem dictGet_cons_ne (p : String × String)
    (ds : List (String × String)) (k : String) (hp : p.1 ≠ k) :
    dictGet (p :: ds) k = dictGet ds k := by
  have hpb : (p.1 == k) = false := by simpa using hp
  simp [dictGet, List.find?, hpb]

theorem dictGet_cons_eq (p : String × String)
    (ds : List (String × String)) (k : String) (hp : p.1 = k) :
    dictGet (p :: ds) k = some p.2 := by
  have hpb : (p.1 == k) = true := by simpa using hp
  simp [dictGet, List.find?, hpb]

theorem dictGet_insert_same (k v : String) :
    ∀ d, dictGet (dictInsert d k v) k = some v := by
  intro d
  induction d with
  | nil => simp [dictInsert, dictGet, List.find?]
  | cons p ds ih =>
    by_cases hp : p.1 = k
    · rw [dictInsert_cons_eq p ds k v hp]
      exact dictGet_cons_eq (k, v) _ k rfl
    · rw [dictInsert_cons_ne p ds k v hp]
      rw [dictGet_cons_ne p _ k hp]
      exact ih

theorem dictGet_map_other (k kp v : String) (hkk : kp ≠ k) :
    ∀ ds, dictGet (ds.map (fun q => if q.1 == kp then (kp, v) else q)) k =
      dictGet ds k := by
  intro ds
  induction ds with
  | nil => rfl
  | cons q ds ih =>
    by_cases hq : q.1 = kp
    · have hqb : (q.1 == kp) = true := by simpa using hq
      simp only [List.map_cons, hqb, if_pos]
      rw [dictGet_cons_ne (kp, v) _ k hkk]
      rw [dictGet_cons_ne q ds k (by rw [hq]; exact hkk)]
      exact ih
    · have hqb : (q.1 == kp) = false := by simpa using hq
      simp only [List.map_cons, hqb, Bool.false_eq_true, if_false]
      by_cases hqk : q.1 = k
      · rw [dictGet_cons_eq q _ k hqk, dictGet_cons_eq q ds k hqk]
      · rw [dictGet_cons_ne q _ k hqk, dictGet_cons_ne q ds k hqk]
        exact ih

theorem dictGet_insert_other (k kp v : String) (hkk : kp ≠ k) :
    ∀ d, dictGet (dictInsert d kp v) k = dictGet d k := by
  intro d
  induction d with
  | nil =>
    simp [dictInsert, dictGet, List.find?, show (kp == k) = false by simpa using hkk]
  | cons p ds ih =>
    by_cases hp : p.1 = kp
    · rw [dictInsert_cons_eq p ds kp v hp]
      rw [dictGet_cons_ne (kp, v) _ k hkk]
      rw [dictGet_cons_ne p ds k (by rw [hp]; exact hkk)]
      exact dictGet_map_other k kp v hkk ds
    · rw [dictInsert_cons_ne p ds kp v hp]
      by_cases hpk : p.1 = k
      · rw [dictGet_cons_eq p _ k hpk, dictGet_cons_eq p ds k hpk]
      · rw [dictGet_cons_ne p _ k hpk, dictGet_cons_ne p ds k hpk]
        exact ih

theorem ipBuild_cons (d : List (String × String)) (line : String)
    (lines : List String) :
    ipBuild d (line :: lines) =
      ipBuild (match ipLineMatch line with
               | some (ifn, ip) => dictInsert d ifn ip
               | none => d) lines := rfl

/-- The dict built by `get_ip`'s loop answers a lookup with the address
of the last matching line for that interface (falling back to the
initial dict when no line matches it). -/
theorem dictGet_ipBuild (k : String) :
    ∀ (lines : List String) (d : List (String × String)),
      dictGet (ipBuild d lines) k =
        match ((lines.filterMap ipLineMatch).filter
            (fun p => p.1 == k)).getLast? with
        | some p => some p.2
        | none => dictGet d k := by
  intro lines
  induction lines with
  | nil => intro d; simp [ipBuild]
  | cons line lines ih =>
    intro d
    rw [ipBuild_cons]
    cases hm : ipLineMatch line with
    | none =>
      simp only [List.filterMap_cons, hm]
      exact ih d
    | some pair =>
      obtain ⟨ifn, ip⟩ := pair
      simp only [List.filterMap_cons, hm]
      rw [ih (dictInsert d ifn ip)]
      by_cases hik : ifn = k
      · have hikb : ((ifn, ip).1 == k) = true := by simpa using hik
        simp only [List.filter_cons, hikb, if_pos]
        cases hF : ((lines.filterMap ipLineMatch).filter
            (fun p => p.1 == k)).getLast? with
        | none =>
          have hFnil : (lines.filterMap ipLineMatch).filter
              (fun p => p.1 == k) = [] := by
            simpa using hF
          rw [hFnil]
          subst hik
          simp [dictGet_insert_same]
        | some q =>
          have hFne : (lines.filterMap ipLineMatch).filter
              (fun p => p.1 == k) ≠ [] := by
            intro hnil
            rw [hnil] at hF
            cases hF
          obtain ⟨f0, fs, hfs⟩ := List.exists_cons_of_ne_nil hFne
          rw [hfs]
          rw [hfs] at hF
          simp [List.getLast?_cons_cons, hF]
      · have hikb : ((ifn, ip).1 == k) = false := by simpa using hik
        simp only [List.filter_cons, hikb, Bool.false_eq_true, if_false]
        rw [dictGet_insert_other k ifn ip hik d]

theorem ipBuild_no_match :
    ∀ (lines : List String) (d : List (String × String)),
      lines.filterMap ipLineMatch = [] → ipBuild d lines = d := by
  intro lines
  induction lines with
  | nil => intro d _; rfl
  | cons line lines ih =>
    intro d h
    rw [List.filterMap_cons] at h
    cases hm : ipLineMatch line with
    | none =>
      rw [hm] at h
      rw [ipBuild_cons]
      simp only [hm]
      exact ih d h
    | some pair => rw [hm] at h; cases h

theorem dictInsert_ne_nil (d : List (String × String)) (k v : String) :
    dictInsert d k v ≠ [] := by
  cases d with
  | nil => simp [dictInsert]
  | cons p ds =>
    unfold dictInsert
    split <;> simp

theorem ipBuild_ne_nil :
    ∀ (lines : List String) (d : List (String × String)),
      d ≠ [] → ipBuild d lines ≠ [] := by
  intro lines
  induction lines with
  | nil => intro d h; exact h
  | cons line lines ih =>
    intro d h
    rw [ipBuild_cons]
    cases hm : ipLineMatch line with
    | none => simp only [hm]; exact ih d h
    | some pair =>
      obtain ⟨ifn, ip⟩ := pair
      simp only [hm]
      exact ih _ (dictInsert_ne_nil d ifn ip)

theorem ipBuild_ne_nil_of_match :
    ∀ lines : List String, lines.filterMap ipLineMatch ≠ [] →
      ipBuild [] lines ≠ [] := by
  intro lines
  induction lines with
  | nil => intro h; simp at h
  | cons line lines ih =>
    intro h
    rw [ipBuild_cons]
    cases hm : ipLineMatch line with
    | none =>
      simp only [hm]
      rw [List.filterMap_cons, hm] at h
      exact ih h
    | some pair =>
      obtain ⟨ifn, ip⟩ := pair
      simp only [hm]
      exact ipBuild_ne_nil lines _ (dictInsert_ne_nil [] ifn ip)

set_option maxRecDepth 100000 in
/-- C5 counterexample: on a READY session whose
`ip -o -4 addr show` output contains a matching global-scope line for
`eth0` only, `get_ip "eth1"` does not return an absent result — it
raises a `KeyError` (`result` is nonempty, so the code executes
`result[interface]` on a missing key). -/
theorem get_ip_counterexample :
    ShellDriver.get_ip 1 "eth1"
      "run 'ip -o -4 addr show'\r\nMARKER\r\n2: eth0    inet 192.168.1.5/24 brd 192.168.1.255 scope global eth0\r\n0\r\nMARKER\r\n$ "
      = .error .keyError := rfl

/-- C5 amended: on a READY-capable session, `get_ip interface` returns
the address captured from the last matching global-scope line for that
interface; it returns an absent result when the underlying command
fails (`ExecutionError`) and when no output line at all matches the
pattern; but when at least one line matches and none of them is for the
requested interface, it raises a `KeyError` instead of returning an
absent result. -/
theorem get_ip_characterized (interface before : String) :
    (∀ c, (ShellDriver.run_check 1 "ip -o -4 addr show" before).2 =
        .error (.executionError c) →
      ShellDriver.get_ip 1 interface before = .ok none) ∧
    (∀ lines, (ShellDriver.run_check 1 "ip -o -4 addr show" before).2 =
        .ok lines →
      (lines.filterMap ipLineMatch = [] →
        ShellDriver.get_ip 1 interface before = .ok none) ∧
      (∀ ifn ip, ((lines.filterMap ipLineMatch).filter
            (fun p => p.1 == interface)).getLast? = some (ifn, ip) →
        ShellDriver.get_ip 1 interface before = .ok (some ip)) ∧
      (lines.filterMap ipLineMatch ≠ [] →
       ((lines.filterMap ipLineMatch).filter
            (fun p => p.1 == interface)).getLast? = none →
        ShellDriver.get_ip 1 interface before = .error .keyError)) := by
  constructor
  · intro c h
    simp [ShellDriver.get_ip, h]
  · intro lines h
    refine ⟨?_, ?_, ?_⟩
    · intro hfm
      simp [ShellDriver.get_ip, h, ipBuild_no_match lines [] hfm]
    · intro ifn ip hlast
      have hfilter_ne : (lines.filterMap ipLineMatch).filter
          (fun p => p.1 == interface) ≠ [] := by
        intro hnil
        rw [hnil] at hlast
        cases hlast
      have hfm_ne : lines.filterMap ipLineMatch ≠ [] := by
        intro hnil
        apply hfilter_ne
        rw [hnil]
        rfl
      have hres_ne := ipBuild_ne_nil_of_match lines hfm_ne
      simp [ShellDriver.get_ip, h, hres_ne,
        dictGet_ipBuild interface lines [], hlast]
    · intro hfm_ne hlast
      have hres_ne := ipBuild_ne_nil_of_match lines hfm_ne
      simp [ShellDriver.get_ip, h, hres_ne,
        dictGet_ipBuild interface lines [], hlast,
        show dictGet [] interface = none from rfl]

set_option maxRecDepth 100000 in
/-- Witness for `get_ip_characterized`: a found-interface lookup and a
failed underlying command, both concrete. -/
theorem get_ip_characterized_witness :
    ShellDriver.get_ip 1 "eth0"
        "run 'ip -o -4 addr show'\r\nMARKER\r\n2: eth0    inet 192.168.1.5/24 brd 192.168.1.255 scope global eth0\r\n0\r\nMARKER\r\n$ "
      = .ok (some "192.168.1.5") ∧
    ShellDriver.get_ip 1 "eth0"
        "run 'ip -o -4 addr show'\r\nMARKER\r\nsh: ip: not found\r\n127\r\nMARKER\r\n$ "
      = .ok none :=
  ⟨(((get_ip_characterized "eth0"
      "run 'ip -o -4 addr show'\r\nMARKER\r\n2: eth0    inet 192.168.1.5/24 brd 192.168.1.255 scope global eth0\r\n0\r\nMARKER\r\n$ ").2
      ["2: eth0    inet 192.168.1.5/24 brd 192.168.1.255 scope global eth0"]
      rfl).2.1 "eth0" "192.168.1.5" rfl),
   ((get_ip_characterized "eth0"
      "run 'ip -o -4 addr show'\r\nMARKER\r\nsh: ip: not found\r\n127\r\nMARKER\r\n$ ").1
      "ip -o -4 addr show" rfl)⟩

/-! ### `SerialDriver` (src/labgrid/driver/serialdriver.py)

The pyserial object is abstracted by recording in the driver state the
target string (`self.serial.port`), the baud rate, the driver `status`
flag, and counters of physical `serial.open()` / `serial.close()`
calls; whether a physical open succeeds is an oracle boolean, and
`proxymanager.get_host_and_port` is an oracle function. -/

/-- The bound resource: a local `SerialPort` or a proxied
`NetworkSerialPort` with its declared sub-protocol. -/
inductive SPort where
  | serialPort (path : String) (speed : Nat)
  | networkSerialPort (protocol : String) (host : String)
      (port : Nat) (speed : Nat)
  deriving DecidableEq, Repr

/-- Which pyserial object `__attrs_post_init__` constructs. -/
inductive SerialKind where
  | plain
  | rfc2217Serial
  | socketUrl
  deriving DecidableEq, Repr

/-- Driver state: target string, baud rate, `self.status`, and counters
of the physical open/close calls issued to the pyserial object. -/
structure SerialState where
  port : String
  baudrate : Nat
  status : Nat
  physOpens : Nat
  physCloses : Nat
  deriving DecidableEq, Repr

namespace SerialDriver

/-- `__attrs_post_init__`: construct `serial.Serial()` for a local port,
`serial.rfc2217.Serial()` for sub-protocol `rfc2217`,
`serial_for_url("socket://", do_not_open=True)` for `raw`, and raise
`Exception("SerialDriver: unknown protocol")` otherwise.  (The
pyserial-version-dependent binding set and warning touch no state and
are omitted.) -/
def attrsPostInit (p : SPort) : Except PyErr SerialKind :=
  match p with
  | .serialPort _ _ => .ok .plain
  | .networkSerialPort protocol _ _ _ =>
    if protocol = "rfc2217" then .ok .rfc2217Serial
    else if protocol = "raw" then .ok .socketUrl
    else .error (.exception "SerialDriver: unknown protocol")

/-- `SerialDriver.open`: `if not self.status:` issue the physical open
(re-raising a `SerialException` that names the target) and set
`self.status = 1`; nothing happens when the status is already truthy.
`openSucceeds` is the environment oracle for the physical open (a failed
attempt raises, so no success state carries its counter). -/
def «open» (openSucceeds : Bool) (s : SerialState) :
    Except PyErr SerialState :=
  if s.status = 0 then
    if openSucceeds then
      .ok { s with physOpens := s.physOpens + 1, status := 1 }
    else .error (.serialException s.port)
  else .ok s

/-- `SerialDriver.close`: `if self.status:` close physically and set
`self.status = 0`; nothing otherwise.  Never raises. -/
def close (s : SerialState) : SerialState :=
  if s.status ≠ 0 then
    { s with physCloses := s.physCloses + 1, status := 0 }
  else s

/-- `on_activate`: fill in `self.serial.port` and
`self.serial.baudrate` — for a proxied port from the proxy-resolved
host/port according to the sub-protocol, raising on an unknown one —
and finally call `self.open()`. -/
def on_activate (resolve : String × Nat → String × Nat)
    (openSucceeds : Bool) (p : SPort) (s : SerialState) :
    Except PyErr SerialState :=
  match p with
  | .serialPort path speed =>
    «open» openSucceeds { s with port := path, baudrate := speed }
  | .networkSerialPort protocol host port speed =>
    let hp := resolve (host, port)
    if protocol = "rfc2217" then
      «open» openSucceeds { s with
        port := "rfc2217://" ++ hp.1 ++ ":" ++ toString hp.2 ++ "/",
        baudrate := speed }
    else if protocol = "raw" then
      «open» openSucceeds { s with
        port := "socket://" ++ hp.1 ++ ":" ++ toString hp.2 ++ "/",
        baudrate := speed }
    else .error (.exception "SerialDriver: unknown protocol")

/-- `on_deactivate`: `self.close()`. -/
def on_deactivate (s : SerialState) : SerialState := close s

/-- `SerialDriver._read`: request `max(size, self.serial.in_waiting)`
bytes with the given timeout configured; an empty result raises a
pexpect `TIMEOUT` carrying the timeout value.  `readResult` is the
environment oracle for `self.serial.read`. -/
def _read (inWaiting : Nat) (readResult : Nat → ℚ → List UInt8)
    (size : Nat) (timeout : ℚ) : Except PyErr (List UInt8) :=
  let reading := max size inWaiting
  let res := readResult reading timeout
  if res = [] then .error (.timeoutErr timeout) else .ok res

end SerialDriver

/-! ### C6: open/close idempotence -/

/-- C6: `open` on an already-OPEN connection returns the state
unchanged without raising and without issuing a physical open; `close`
on an already-CLOSED connection is likewise a no-op (and, being a total
function, `close` never raises, so it is safe even when `open` never
succeeded); consequently open;open is equivalent to open and
close;close to close, on every connection state. -/
theorem open_close_idempotent :
    (∀ (b : Bool) (s : SerialState), s.status ≠ 0 →
      SerialDriver.«open» b s = .ok s) ∧
    (∀ s : SerialState, s.status = 0 → SerialDriver.close s = s) ∧
    (∀ (b : Bool) (s : SerialState),
      (SerialDriver.«open» b s).bind (SerialDriver.«open» b) =
        SerialDriver.«open» b s) ∧
    (∀ s : SerialState,
      SerialDriver.close (SerialDriver.close s) = SerialDriver.close s) := by
  refine ⟨?_, ?_, ?_, ?_⟩
  · intro b s hs
    simp [SerialDriver.«open», hs]
  · intro s hs
    simp [SerialDriver.close, hs]
  · intro b s
    by_cases hs : s.status = 0
    · cases b with
      | true => simp [SerialDriver.«open», hs, Except.bind]
      | false => simp [SerialDriver.«open», hs, Except.bind]
    · simp [SerialDriver.«open», hs, Except.bind]
  · intro s
    by_cases hs : s.status = 0
    · simp [SerialDriver.close, hs]
    · simp [SerialDriver.close, hs]

/-- Witness for `open_close_idempotent`: an already-open state and an
already-closed state. -/
theorem open_close_idempotent_witness :
    SerialDriver.«open» true ⟨"/dev/ttyUSB0", 115200, 1, 1, 0⟩ =
        .ok ⟨"/dev/ttyUSB0", 115200, 1, 1, 0⟩ ∧
    SerialDriver.close ⟨"/dev/ttyUSB0", 115200, 0, 0, 0⟩ =
        ⟨"/dev/ttyUSB0", 115200, 0, 0, 0⟩ :=
  ⟨open_close_idempotent.1 true ⟨"/dev/ttyUSB0", 115200, 1, 1, 0⟩ (by decide),
   open_close_idempotent.2.1 ⟨"/dev/ttyUSB0", 115200, 0, 0, 0⟩ rfl⟩

/-! ### C7: proxied activation -/

/-- C7 counterexample: activating a proxied `rfc2217` endpoint from the
fresh (CLOSED) state does open the connection's port state — the final
statement of `on_activate` is `self.open()`, so the resulting state has
`status = 1` and one physical open issued, contradicting the claim that
activation itself does not open the port state. -/
theorem on_activate_counterexample :
    SerialDriver.on_activate (fun hp => hp) true
        (.networkSerialPort "rfc2217" "proxyhost" 4000 115200)
        ⟨"", 0, 0, 0, 0⟩ =
      .ok ⟨"rfc2217://proxyhost:4000/", 115200, 1, 1, 0⟩ := rfl

/-- C7 amended: for a proxied endpoint with an unrecognized
sub-protocol, both construction and activation raise the fatal
configuration error; for a recognized sub-protocol, activation
constructs the target string `rfc2217://host:port/` or
`socket://host:port/` from the proxy-resolved host and port — and then
opens the connection itself (its final step is `self.open()`), setting
status 1 and issuing the physical open when it succeeds, or re-raising
a `SerialException` naming the target when it fails. -/
theorem on_activate_characterized (resolve : String × Nat → String × Nat)
    (b : Bool) (protocol host : String) (port speed : Nat)
    (s : SerialState) (hs : s.status = 0) :
    (protocol ≠ "rfc2217" → protocol ≠ "raw" →
      SerialDriver.attrsPostInit
          (.networkSerialPort protocol host port speed) =
        .error (.exception "SerialDriver: unknown protocol") ∧
      SerialDriver.on_activate resolve b
          (.networkSerialPort protocol host port speed) s =
        .error (.exception "SerialDriver: unknown protocol")) ∧
    (protocol = "rfc2217" →
      SerialDriver.on_activate resolve b
          (.networkSerialPort protocol host port speed) s =
        (if b then
          .ok { s with
            port := "rfc2217://" ++ (resolve (host, port)).1 ++ ":" ++
              toString (resolve (host, port)).2 ++ "/",
            baudrate := speed, status := 1,
            physOpens := s.physOpens + 1 }
        else .error (.serialException
          ("rfc2217://" ++ (resolve (host, port)).1 ++ ":" ++
            toString (resolve (host, port)).2 ++ "/")))) ∧
    (protocol = "raw" →
      SerialDriver.on_activate resolve b
          (.networkSerialPort protocol host port speed) s =
        (if b then
          .ok { s with
            port := "socket://" ++ (resolve (host, port)).1 ++ ":" ++
              toString (resolve (host, port)).2 ++ "/",
            baudrate := speed, status := 1,
            physOpens := s.physOpens + 1 }
        else .error (.serialException
          ("socket://" ++ (resolve (host, port)).1 ++ ":" ++
            toString (resolve (host, port)).2 ++ "/")))) := by
  refine ⟨?_, ?_, ?_⟩
  · intro h1 h2
    constructor
    · simp [SerialDriver.attrsPostInit, h1, h2]
    · simp [SerialDriver.on_activate, h1, h2]
  · intro h1
    subst h1
    cases b <;> simp [SerialDriver.on_activate, SerialDriver.«open», hs]
  · intro h1
    subst h1
    cases b <;> simp [SerialDriver.on_activate, SerialDriver.«open», hs]

/-- Witness for `on_activate_characterized`: an unknown sub-protocol
and both recognized sub-protocols, all from the fresh state. -/
theorem on_activate_characterized_witness :
    (SerialDriver.attrsPostInit
        (.networkSerialPort "telnet" "h" 23 9600) =
      .error (.exception "SerialDriver: unknown protocol") ∧
     SerialDriver.on_activate (fun hp => hp) true
        (.networkSerialPort "telnet" "h" 23 9600) ⟨"", 0, 0, 0, 0⟩ =
      .error (.exception "SerialDriver: unknown protocol")) ∧
    SerialDriver.on_activate (fun hp => hp) true
        (.networkSerialPort "raw" "h" 2001 9600) ⟨"", 0, 0, 0, 0⟩ =
      (if true then
        .ok ⟨"socket://h:2001/", 9600, 1, 1, 0⟩
      else .error (.serialException "socket://h:2001/")) :=
  ⟨(on_activate_characterized (fun hp => hp) true "telnet" "h" 23 9600
      ⟨"", 0, 0, 0, 0⟩ rfl).1 (by decide) (by decide),
   by
    have := (on_activate_characterized (fun hp => hp) true "raw" "h" 2001 9600
      ⟨"", 0, 0, 0, 0⟩ rfl).2.2 rfl
    simpa using this⟩

/-! ### C8: `_read` -/

/-- C8: `_read` passes `max(min_size, in_waiting)` to the transport
read — in particular, when the buffer already holds at least `min_size`
pending bytes the larger pending amount is requested and returned — and
it fails, with a Timeout carrying the timeout duration, exactly when
the read result is empty (nothing arrived within the timeout). -/
theorem read_characterized (inWaiting size : Nat) (timeout : ℚ)
    (readResult : Nat → ℚ → List UInt8) :
    (SerialDriver._read inWaiting readResult size timeout =
        .error (.timeoutErr timeout) ↔
      readResult (max size inWaiting) timeout = []) ∧
    (∀ e, SerialDriver._read inWaiting readResult size timeout =
        .error e → e = .timeoutErr timeout) ∧
    (size ≤ inWaiting → readResult inWaiting timeout ≠ [] →
      SerialDriver._read inWaiting readResult size timeout =
        .ok (readResult inWaiting timeout)) := by
  refine ⟨?_, ?_, ?_⟩
  · constructor
    · intro h
      by_cases hr : readResult (max size inWaiting) timeout = []
      · exact hr
      · simp [SerialDriver._read, hr] at h
    · intro h
      simp [SerialDriver._read, h]
  · intro e h
    by_cases hr : readResult (max size inWaiting) timeout = []
    · simp [SerialDriver._read, hr] at h
      exact h.symm
    · simp [SerialDriver._read, hr] at h
  · intro hle hne
    have hmax : max size inWaiting = inWaiting := Nat.max_eq_right hle
    simp [SerialDriver._read, hmax, hne]

/-- Witness for `read_characterized`: nine bytes pending, five
requested — the nine pending bytes are returned. -/
theorem read_characterized_witness :
    5 ≤ 9 ∧ (List.replicate 9 (55 : UInt8) ≠ []) ∧
    SerialDriver._read 9 (fun n _ => List.replicate n (55 : UInt8)) 5 0 =
      .ok (List.replicate 9 (55 : UInt8)) :=
  ⟨by decide, by decide,
   (read_characterized 9 5 0 (fun n _ => List.replicate n (55 : UInt8))).2.2
     (by decide) (by decide)⟩

/-! ### C9: `put_ssh_key`

The key file is abstracted by the line `keyfile.readline()` returns;
the remote target by a `Remote` state recording the content of
`~/.ssh/authorized_keys` and `/tmp/keys`.  The six fixed shell commands
the method executes act on that state with their standard semantics
(`cat` lists the lines or fails with exit 1 on an absent file, `touch`
creates an empty file, `echo "<line>" > /tmp/keys` stages the line,
`chmod` touches no modelled state, `mount --bind` makes the
authorized-keys path show `/tmp/keys`). -/

/-- `[a-zA-Z0-9/+=]` — the key-material class of the `put_ssh_key`
regex (no underscore, unlike `\w`). -/
def isKeyChar (c : Char) : Bool :=
  c.isAlphanum || c = '/' || c = '+' || c = '='

/-- `re.match` of `ssh-rsa\s+(?P<key>[a-zA-Z0-9/+=]+)\s+(?P<comment>.*)`
(written with `re.X` in the source): the captured key material and
comment.  Each greedy repetition is followed by a disjoint character
class, so greedy matching without backtracking is exact; `.*` stops at
a newline. -/
def sshRsaMatch (s : String) : Option (String × String) := do
  let r1 ← litStr "ssh-rsa".data s.data
  let (_, r2) ← takeClass1 isPySpace r1
  let (key, r3) ← takeClass1 isKeyChar r2
  let (_, r4) ← takeClass1 isPySpace r3
  let comment := r4.takeWhile (· != '\n')
  return (String.mk key, String.mk comment)

/-- Remote state visible to `put_ssh_key`. -/
structure Remote where
  /-- lines of `~/.ssh/authorized_keys`; `none` when the file is absent. -/
  authKeys : Option (List String)
  /-- lines of `/tmp/keys`. -/
  tmpKeys : List String
  deriving DecidableEq, Repr

/-- `cat ~/.ssh/authorized_keys` (executed via `run`): the lines and
exit 0, or a diagnostic line and exit 1 when the file is absent. -/
def catAuthorizedKeys (r : Remote) : List String × Int :=
  match r.authKeys with
  | some ls => (ls, 0)
  | none => (["cat: ~/.ssh/authorized_keys: No such file or directory"], 1)

/-- `touch ~/.ssh/authorized_keys`. -/
def touchAuthorizedKeys (r : Remote) : Remote :=
  match r.authKeys with
  | some _ => r
  | none => { r with authKeys := some [] }

/-- `echo "<keyline>" > /tmp/keys`: the staged file's lines are the
echoed line split at embedded newlines (echo appends the final
newline). -/
def echoToTmpKeys (keyline : String) (r : Remote) : Remote :=
  { r with tmpKeys := pySplit keyline "\n" }

/-- `mount --bind /tmp/keys ~/.ssh/authorized_keys`. -/
def bindMountTmpKeys (r : Remote) : Remote :=
  { r with authKeys := some r.tmpKeys }

/-- The command strings `put_ssh_key` executes, as in the source. -/
def catCmd : String := "cat ~/.ssh/authorized_keys"

/-- `touch` command string. -/
def touchCmd : String := "touch ~/.ssh/authorized_keys"

/-- `echo` staging command string (the key line is interpolated). -/
def echoCmd (keyline : String) : String :=
  "echo \"" ++ keyline ++ "\" > /tmp/keys"

/-- `chmod` of the staging file. -/
def chmodTmpCmd : String := "chmod 600 /tmp/keys"

/-- `mount --bind` command string. -/
def mountCmd : String := "mount --bind /tmp/keys ~/.ssh/authorized_keys"

/-- `chmod` of the mounted authorized-keys file. -/
def chmodAuthCmd : String := "chmod 600 ~/.ssh/authorized_keys"

namespace ShellDriver

/-- `ShellDriver.put_ssh_key` over the modelled remote: when
`_status == 1`, parse the key line (`IOError` when it does not match),
`cat` the existing authorized keys via `run` (plus a `touch` when that
exits 1), collect the `ssh-rsa` matches of the output lines, return
early when one carries the same key material, and otherwise stage,
chmod, bind-mount and chmod again via `run_check` (all exiting 0 in the
modelled remote).  Returns the resulting remote state and the shell
commands executed. -/
def put_ssh_key (status : Nat) (keyline : String) (r : Remote) :
    Except PyErr (Remote × List String) :=
  if status = 1 then
    match sshRsaMatch keyline with
    | none => .error .ioError
    | some new_key =>
      let catRes := catAuthorizedKeys r
      let auth_keys := catRes.1
      let exitcode := catRes.2
      let r1 := if exitcode = 1 then touchAuthorizedKeys r else r
      let cmds1 := if exitcode = 1 then [catCmd, touchCmd] else [catCmd]
      let result := auth_keys.filterMap sshRsaMatch
      if result.any (fun k => k.1 == new_key.1) then
        .ok (r1, cmds1)
      else
        let r2 := bindMountTmpKeys (echoToTmpKeys keyline r1)
        .ok (r2, cmds1 ++
          [echoCmd keyline, chmodTmpCmd, mountCmd, chmodAuthCmd])
  else .ok (r, [])

end ShellDriver

theorem pySplitAux_no_sep (cs : List Char) (hnl : ∀ c ∈ cs, c ≠ '\n') :
    ∀ (gas : Nat) (acc : List Char),
      pySplitAux ['\n'] gas acc cs = [acc.reverse ++ cs] := by
  induction cs with
  | nil => intro gas acc; cases gas <;> simp [pySplitAux]
  | cons c rest ih =>
    intro gas acc
    cases gas with
    | zero => simp [pySplitAux]
    | succ g =>
      have hc : c ≠ '\n' := hnl c (by simp)
      have hpre : (['\n'].isPrefixOf (c :: rest)) = false := by
        simp [List.isPrefixOf]
        exact fun h => absurd h.symm hc
      simp only [pySplitAux, hpre, Bool.false_eq_true, if_false]
      rw [ih (fun x hx => hnl x (List.mem_cons_of_mem c hx)) g (c :: acc)]
      simp

/-- A separator-free string splits into itself alone. -/
theorem pySplit_no_sep (s : String) (hnl : ∀ c ∈ s.data, c ≠ '\n') :
    pySplit s "\n" = [s] := by
  unfold pySplit
  rw [show ("\n" : String).data = ['\n'] from rfl,
    pySplitAux_no_sep s.data hnl s.data.length []]
  rfl

/-- C9: `put_ssh_key` is idempotent.  For a key file whose single line
(no embedded newline) matches the ssh-rsa format, after any successful
first installation the second call with the same key line finds the
matching key material among the existing authorized-keys entries and
returns early: it executes only the `cat` — no write, no permission
change, no mount — and leaves the remote state unchanged. -/
theorem put_ssh_key_idempotent (keyline : String) (nk : String × String)
    (hnl : ∀ c ∈ keyline.data, c ≠ '\n')
    (hm : sshRsaMatch keyline = some nk)
    (r0 r1 : Remote) (cmds1 : List String)
    (h1 : ShellDriver.put_ssh_key 1 keyline r0 = .ok (r1, cmds1)) :
    ShellDriver.put_ssh_key 1 keyline r1 = .ok (r1, [catCmd]) := by
  have hsplit : pySplit keyline "\n" = [keyline] := pySplit_no_sep keyline hnl
  have herr : sshRsaMatch
      "cat: ~/.ssh/authorized_keys: No such file or directory" = none := rfl
  cases hak : r0.authKeys with
  | none =>
    simp [ShellDriver.put_ssh_key, hm, catAuthorizedKeys, hak, herr,
      touchAuthorizedKeys, echoToTmpKeys, bindMountTmpKeys, hsplit] at h1
    obtain ⟨hr1, -⟩ := h1
    subst hr1
    simp [ShellDriver.put_ssh_key, hm, catAuthorizedKeys]
  | some ls =>
    by_cases hhit :
        (ls.filterMap sshRsaMatch).any (fun k => k.1 == nk.1) = true
    · simp [ShellDriver.put_ssh_key, hm, catAuthorizedKeys, hak, hhit] at h1
      obtain ⟨hr1, -⟩ := h1
      subst hr1
      simp [ShellDriver.put_ssh_key, hm, catAuthorizedKeys, hak, hhit]
    · simp [ShellDriver.put_ssh_key, hm, catAuthorizedKeys, hak, hhit,
        echoToTmpKeys, bindMountTmpKeys, hsplit] at h1
      obtain ⟨hr1, -⟩ := h1
      subst hr1
      simp [ShellDriver.put_ssh_key, hm, catAuthorizedKeys]

/-- Witness for `put_ssh_key_idempotent`: installing a concrete key on
a target without an authorized-keys file, then re-installing it. -/
theorem put_ssh_key_idempotent_witness :
    ShellDriver.put_ssh_key 1 "ssh-rsa AAAAB3Nza test@host" ⟨none, []⟩ =
      .ok (⟨some ["ssh-rsa AAAAB3Nza test@host"],
            ["ssh-rsa AAAAB3Nza test@host"]⟩,
        [catCmd, touchCmd, echoCmd "ssh-rsa AAAAB3Nza test@host",
         chmodTmpCmd, mountCmd, chmodAuthCmd]) ∧
    ShellDriver.put_ssh_key 1 "ssh-rsa AAAAB3Nza test@host"
        ⟨some ["ssh-rsa AAAAB3Nza test@host"],
         ["ssh-rsa AAAAB3Nza test@host"]⟩ =
      .ok (⟨some ["ssh-rsa AAAAB3Nza test@host"],
            ["ssh-rsa AAAAB3Nza test@host"]⟩, [catCmd]) :=
  ⟨rfl,
   put_ssh_key_idempotent "ssh-rsa AAAAB3Nza test@host"
     ("AAAAB3Nza", "test@host") (by decide) rfl ⟨none, []⟩ _ _ rfl⟩
